import Mathlib

/-!
# Verification of `syscontainer_build/cli.py`

A shallow embedding of the system-container build tool
(`src/syscontainer_build/cli.py`) together with theorems settling the
specification's claims about it.

Modelling conventions:
* Python `str.split(sep)` with a single-character separator is embedded as
  `pySplit` (structural recursion over the character list, so that the kernel
  can evaluate it).
* A Python `dict` with string keys is embedded as an insertion-ordered
  association list; `dictInsert` is `d[k] = v` (update in place keeps the
  original position, a new key is appended) and `dictLookup` is `d.get(k)`.
* The filesystem and the process working directory are explicit state
  (`ProcState`); external processes are parameterized by their exit status and
  any file content they would produce.
* `json.dump` / `json.load` (an external library collaborator) are modelled at
  the level of a JSON syntax tree.
-/

namespace SyscontainerBuild

/-- Splits a character list at every occurrence of the separator `c`,
mirroring Python's `str.split(sep)` for a one-character `sep`: empty pieces
are kept and the empty input yields one empty piece. -/
def splitChar (c : Char) : List Char → List (List Char)
  | [] => [[]]
  | x :: xs =>
    match splitChar c xs with
    | [] => [[]]
    | y :: ys => if x = c then [] :: y :: ys else (x :: y) :: ys

/-- Python's `s.split(c)` for a single-character separator `c`. -/
def pySplit (c : Char) (s : String) : List String :=
  (splitChar c s.data).map String.mk

/-- Embeds `k, v = item.split('=')` from `GenerateFilesAction.__call__`:
the unpacking succeeds exactly when the split has exactly two pieces,
otherwise a `ValueError` is raised (modelled as `none`). -/
def parseKV (item : String) : Option (String × String) :=
  match pySplit '=' item with
  | [k, v] => some (k, v)
  | _ => none

/-- `d[k] = v` on an insertion-ordered association list: an existing key keeps
its position and gets the new value, a new key is appended at the end. -/
def dictInsert {α : Type} : List (String × α) → String → α → List (String × α)
  | [], k, v => [(k, v)]
  | p :: rest, k, v => if p.1 = k then (k, v) :: rest else p :: dictInsert rest k v

/-- `d.get(k)` on the association-list embedding of a `dict`. -/
def dictLookup {α : Type} : List (String × α) → String → Option α
  | [], _ => none
  | p :: rest, k => if p.1 = k then some p.2 else dictLookup rest k

/-- Removal of a key from the association-list embedding of a `dict`. -/
def dictRemove {α : Type} : List (String × α) → String → List (String × α)
  | [], _ => []
  | p :: rest, k => if p.1 = k then dictRemove rest k else p :: dictRemove rest k

/-- The diagnostic printed by `parser._print_message` for an override token
that does not unpack into `k, v`. -/
def overrideDiagnostic (item : String) : String :=
  item ++ " not in a=b format. Skipping..."

/-- The `for item in namespace.default` loop of `GenerateFilesAction.__call__`:
each token is split on `=`; a token unpacking into `k, v` is assigned into
`defaultValues`, any other token only appends a diagnostic, and the loop
continues. -/
def processOverridesAux :
    List String → List (String × String) → List String →
    List (String × String) × List String
  | [], dv, diags => (dv, diags)
  | item :: rest, dv, diags =>
    match parseKV item with
    | some (k, v) => processOverridesAux rest (dictInsert dv k v) diags
    | none => processOverridesAux rest dv (diags ++ [overrideDiagnostic item])

/-- Override processing started from the empty `defaultValues` dictionary and
no diagnostics, as in the source. -/
def processOverrides (tokens : List String) : List (String × String) × List String :=
  processOverridesAux tokens [] []

/-- The manifest structure built by `GenerateFilesAction.__call__`. -/
structure Manifest where
  version : String
  defaultValues : List (String × String)
deriving DecidableEq, Repr

/-- `manifest_struct` after the override loop: version `"1.0"`, and the
`defaultValues` accumulated from the override tokens. -/
def generateManifest (tokens : List String) : Manifest :=
  { version := "1.0", defaultValues := (processOverrides tokens).1 }

/-- Follows the spec's words (refinement side of C3): the values assigned to
key `k` by the valid overrides among `tokens`, in input order. -/
def specAssignments (tokens : List String) (k : String) : List String :=
  tokens.filterMap fun item =>
    match parseKV item with
    | some (a, b) => if a = k then some b else none
    | none => none

/-- Follows the spec's words (refinement side of C3): the last value assigned
to key `k`, if any — "last-write-wins". -/
def specLastValue (tokens : List String) (k : String) : Option String :=
  (specAssignments tokens k).getLast?

/- ### Helper lemmas about the dictionary embedding -/

/-- `optOr a b` is `a` when `a` is `some`, else `b` (first-defined choice). -/
def optOr {α : Type} : Option α → Option α → Option α
  | some a, _ => some a
  | none, b => b

theorem optOr_none_right {α : Type} (a : Option α) : optOr a none = a := by
  cases a <;> rfl

theorem dictLookup_dictInsert {α : Type} (m : List (String × α)) (k k' : String) (v : α) :
    dictLookup (dictInsert m k v) k' = if k = k' then some v else dictLookup m k' := by
  induction m with
  | nil => simp [dictInsert, dictLookup]
  | cons p rest ih =>
    by_cases hpk : p.1 = k
    · by_cases hkk : k = k'
      · simp [dictInsert, dictLookup, hpk, hkk]
      · have hpk' : ¬ p.1 = k' := by rw [hpk]; exact hkk
        simp [dictInsert, dictLookup, hpk, hkk, hpk']
    · by_cases hpk' : p.1 = k'
      · have hkk : ¬ k = k' := fun h => hpk (hpk'.trans h.symm)
        have hkk' : ¬ k' = k := fun h => hpk (hpk'.trans h)
        simp [dictInsert, dictLookup, hpk, hpk', hkk, hkk']
      · simp [dictInsert, dictLookup, hpk, hpk', ih]

theorem mem_dictInsert {α : Type} (m : List (String × α)) (k : String) (v : α)
    (p : String × α) (hp : p ∈ dictInsert m k v) : p ∈ m ∨ p = (k, v) := by
  induction m with
  | nil => simp [dictInsert] at hp; right; exact hp
  | cons q rest ih =>
    by_cases hqk : q.1 = k
    · simp [dictInsert, hqk] at hp
      rcases hp with h | h
      · right; exact h
      · left; exact List.mem_cons_of_mem q h
    · simp [dictInsert, hqk] at hp
      rcases hp with h | h
      · left; exact h ▸ List.mem_cons_self q rest
      · rcases ih h with h' | h'
        · left; exact List.mem_cons_of_mem q h'
        · right; exact h'

/- ### Helper lemmas about the override loop -/

theorem parseKV_eq_none_iff (item : String) :
    parseKV item = none ↔ (pySplit '=' item).length ≠ 2 := by
  rcases h : pySplit '=' item with _ | ⟨a, _ | ⟨b, _ | ⟨c, l⟩⟩⟩ <;>
    simp [parseKV, h]

theorem processOverridesAux_diags (tokens : List String)
    (dv : List (String × String)) (diags : List String) :
    (processOverridesAux tokens dv diags).2 =
      diags ++ (tokens.filter fun t => (pySplit '=' t).length != 2).map overrideDiagnostic := by
  induction tokens generalizing dv diags with
  | nil => simp [processOverridesAux]
  | cons item rest ih =>
    rcases h : parseKV item with _ | ⟨k, v⟩
    · have hlen : ((pySplit '=' item).length != 2) = true := by
        simpa using (parseKV_eq_none_iff item).mp h
      simp [processOverridesAux, h, ih, hlen]
    · have hlen : (pySplit '=' item).length = 2 := by
        by_contra hne
        rw [(parseKV_eq_none_iff item).mpr hne] at h
        exact Option.noConfusion h
      simp [processOverridesAux, h, ih, hlen]

theorem processOverridesAux_mem (tokens : List String)
    (dv : List (String × String)) (diags : List String) (p : String × String)
    (hp : p ∈ (processOverridesAux tokens dv diags).1) :
    p ∈ dv ∨ ∃ t ∈ tokens, parseKV t = some p := by
  induction tokens generalizing dv diags with
  | nil => left; simpa [processOverridesAux] using hp
  | cons item rest ih =>
    rcases h : parseKV item with _ | ⟨k, v⟩
    · rw [processOverridesAux, h] at hp
      rcases ih _ _ hp with h' | ⟨t, ht, hkv⟩
      · left; exact h'
      · right; exact ⟨t, List.mem_cons_of_mem item ht, hkv⟩
    · rw [processOverridesAux, h] at hp
      rcases ih _ _ hp with h' | ⟨t, ht, hkv⟩
      · rcases mem_dictInsert _ _ _ _ h' with h'' | h''
        · left; exact h''
        · right; exact ⟨item, List.mem_cons_self item rest, by rw [h, h'']⟩
      · right; exact ⟨t, List.mem_cons_of_mem item ht, hkv⟩

theorem getLast?_cons_optOr {α : Type} (a : α) (l : List α) :
    (a :: l).getLast? = optOr l.getLast? (some a) := by
  cases l with
  | nil => rfl
  | cons b t =>
    rw [List.getLast?_cons_cons]
    cases h : (b :: t).getLast? with
    | none => simp [List.getLast?_eq_none_iff] at h
    | some c => rfl

theorem processOverridesAux_lookup (tokens : List String)
    (dv : List (String × String)) (diags : List String) (k : String) :
    dictLookup (processOverridesAux tokens dv diags).1 k =
      optOr (specAssignments tokens k).getLast? (dictLookup dv k) := by
  induction tokens generalizing dv diags with
  | nil => simp [processOverridesAux, specAssignments, optOr]
  | cons item rest ih =>
    rcases h : parseKV item with _ | ⟨a, b⟩
    · rw [processOverridesAux, h]
      rw [ih]
      have hs : specAssignments (item :: rest) k = specAssignments rest k := by
        simp [specAssignments, List.filterMap_cons, h]
      rw [hs]
    · rw [processOverridesAux, h]
      rw [ih]
      by_cases hak : a = k
      · have hs : specAssignments (item :: rest) k = b :: specAssignments rest k := by
          simp [specAssignments, List.filterMap_cons, h, hak]
        rw [hs, dictLookup_dictInsert, if_pos hak, getLast?_cons_optOr]
        cases hrest : (specAssignments rest k).getLast? <;> rfl
      · have hs : specAssignments (item :: rest) k = specAssignments rest k := by
          simp [specAssignments, List.filterMap_cons, h, hak]
        rw [hs, dictLookup_dictInsert, if_neg hak]

/- ### Claims C1–C3 -/

/-- C1: every override token that does not split into exactly two parts on
`=` is excluded from the resulting manifest's `defaultValues`, a diagnostic is
emitted for it, and processing continues; in particular
`["a=1", "b=2=2", "c=3"]` yields `defaultValues = {a ↦ 1, c ↦ 3}` with one
diagnostic for `"b=2=2"`. -/
theorem overrides_malformed_excluded_with_diagnostic :
    (∀ tokens : List String, (processOverrides tokens).2 =
      (tokens.filter fun t => (pySplit '=' t).length != 2).map overrideDiagnostic)
    ∧ (∀ (tokens : List String) (p : String × String), p ∈ (processOverrides tokens).1 →
        ∃ t ∈ tokens, pySplit '=' t = [p.1, p.2])
    ∧ processOverrides ["a=1", "b=2=2", "c=3"] =
        ([("a", "1"), ("c", "3")], ["b=2=2 not in a=b format. Skipping..."]) := by
  refine ⟨fun tokens => ?_, fun tokens p hp => ?_, by decide⟩
  · simpa using processOverridesAux_diags tokens [] []
  · rcases processOverridesAux_mem tokens [] [] p hp with h | ⟨t, ht, hkv⟩
    · simp at h
    · refine ⟨t, ht, ?_⟩
      unfold parseKV at hkv
      rcases hs : pySplit '=' t with _ | ⟨a, _ | ⟨b, _ | ⟨c, l⟩⟩⟩ <;>
        rw [hs] at hkv <;> simp at hkv
      simp [← hkv]

/-- Witness for C1 at the concrete inputs of the claim. -/
theorem overrides_malformed_excluded_with_diagnostic_witness :
    ∃ t ∈ ["a=1", "b=2=2", "c=3"], pySplit '=' t = ["a", "1"] :=
  overrides_malformed_excluded_with_diagnostic.2.1 ["a=1", "b=2=2", "c=3"] ("a", "1")
    (by decide)

/-- Counterexample to C2: on the token `"=v"` (exactly one `=`, empty key
side) the override loop does not fail — it adds the entry `("", "v")` to
`defaultValues` and emits no diagnostic. -/
theorem override_empty_side_accepted_counterexample :
    ("", "v") ∈ (processOverrides ["=v"]).1 ∧ (processOverrides ["=v"]).2 = [] := by
  decide

/-- C2 (amended): every override token with exactly one `=` — including a
token with an empty key side or an empty value side such as `"=v"` or
`"k="` — is accepted: the pair is assigned into `defaultValues` and no
diagnostic is emitted. -/
theorem override_single_eq_always_accepted (token k v : String)
    (h : pySplit '=' token = [k, v]) :
    processOverrides [token] = ([(k, v)], []) := by
  have hkv : parseKV token = some (k, v) := by unfold parseKV; rw [h]
  simp [processOverrides, processOverridesAux, hkv, dictInsert]

/-- Witness for the amended C2 at the empty-key token `"=v"`. -/
theorem override_single_eq_always_accepted_witness :
    processOverrides ["=v"] = ([("", "v")], []) :=
  override_single_eq_always_accepted "=v" "" "v" (by decide)

/-- C3: starting from `{version := "1.0", defaultValues := {}}`, the manifest
built by generate-files maps each key to the last value assigned to it by a
valid override, in input order (last-write-wins). -/
theorem manifest_last_write_wins :
    (∀ (tokens : List String) (k : String),
      dictLookup (generateManifest tokens).defaultValues k = specLastValue tokens k)
    ∧ (∀ tokens : List String, (generateManifest tokens).version = "1.0")
    ∧ (generateManifest []).defaultValues = [] := by
  refine ⟨fun tokens k => ?_, fun tokens => rfl, rfl⟩
  have h := processOverridesAux_lookup tokens [] [] k
  unfold generateManifest processOverrides specLastValue
  rw [h]
  show optOr (specAssignments tokens k).getLast? none = (specAssignments tokens k).getLast?
  exact optOr_none_right _

/- ### JSON serialization (`json.dump` / `json.load` at the syntax-tree level) -/

/-- JSON syntax tree covering the shapes this program serializes: strings and
string-keyed objects.  `json.dump(manifest_struct, manifest, indent='    ')`
writes this tree as 4-space-indented UTF-8 text; the Python `json` library is
an external collaborator, so serialization is modelled at the tree level. -/
inductive Json where
  | str : String → Json
  | obj : List (String × Json) → Json

/-- The JSON object written to `manifest.json` by generate-files: top-level
keys `version` and `defaultValues`, the latter a string-to-string object. -/
def dumpManifest (m : Manifest) : Json :=
  Json.obj [("version", Json.str m.version),
            ("defaultValues", Json.obj (m.defaultValues.map fun p => (p.1, Json.str p.2)))]

/-- Decoding a string-keyed JSON object as a string-to-string mapping, as a
consumer parsing `manifest.json` back would. -/
def decodeStringMap : List (String × Json) → Option (List (String × String))
  | [] => some []
  | (k, Json.str s) :: rest =>
    match decodeStringMap rest with
    | some l => some ((k, s) :: l)
    | none => none
  | (_, Json.obj _) :: _ => none

/-- Parsing a serialized manifest back: extract the `defaultValues` member
and decode it as a string-to-string mapping. -/
def loadDefaultValues (j : Json) : Option (List (String × String)) :=
  match j with
  | Json.obj fields =>
    match dictLookup fields "defaultValues" with
    | some (Json.obj dv) => decodeStringMap dv
    | _ => none
  | Json.str _ => none

theorem decodeStringMap_map (l : List (String × String)) :
    decodeStringMap (l.map fun p => (p.1, Json.str p.2)) = some l := by
  induction l with
  | nil => rfl
  | cons p rest ih => simp [decodeStringMap, ih]

/-- C9: serializing the manifest built from any override sequence (as the
structured object with top-level keys `version = "1.0"` and `defaultValues`)
and parsing the serialization back yields exactly the original
`defaultValues` mapping — literal equality, which in particular implies
order-independent equality of the mappings. -/
theorem manifest_serialization_roundtrip :
    ∀ tokens : List String,
      loadDefaultValues (dumpManifest (generateManifest tokens)) =
        some (generateManifest tokens).defaultValues := by
  intro tokens
  simp [loadDefaultValues, dumpManifest, dictLookup, decodeStringMap_map]

/- ### The ocitools argument vector of the config-generation phase -/

/-- The ocitools argument-vector construction in
`GenerateFilesAction.__call__`: `namespace.config` is split on single spaces
and each piece's `=`-split parts are appended to `['ocitools', 'generate']`.
The loop carries a diagnostics component mirroring `parser._print_message`;
the source's `except ValueError` handler can never run, because list
concatenation (unlike tuple unpacking) cannot raise `ValueError` — so no
diagnostic is ever emitted by this loop. -/
def buildOcitoolsCmd (config : String) : List String × List String :=
  (pySplit ' ' config).foldl
    (fun acc item => (acc.1 ++ pySplit '=' item, acc.2))
    (["ocitools", "generate"], [])

theorem buildOcitoolsCmd_foldl_snd (l : List String) (cmd diags : List String) :
    (l.foldl (fun acc item => (acc.1 ++ pySplit '=' item, acc.2)) (cmd, diags)).2
      = diags := by
  induction l generalizing cmd diags with
  | nil => rfl
  | cons item rest ih => exact ih _ _

/-- C4 is violated by the code, exercised here at the failing input: for the
config string `"a=b=c"`, whose single token does not split into exactly two
parts on `=`, all three split parts are still appended to the constructed
argument vector and no warning is emitted for any config string — the
malformed-token handler in the source is unreachable. -/
theorem ocitools_malformed_token_appended_no_warning :
    buildOcitoolsCmd "a=b=c" = (["ocitools", "generate", "a", "b", "c"], [])
    ∧ ∀ config : String, (buildOcitoolsCmd config).2 = [] := by
  refine ⟨by decide, fun config => ?_⟩
  exact buildOcitoolsCmd_foldl_snd _ _ _

/-- The default value of the `--config` option of `files_command`
(`default=''`). -/
def configDefault : String := ""

/-- C10: with the default empty config string, `''.split(' ')` yields a
single empty token whose `=`-split is itself, so the argument vector built
for the external config generator is exactly `['ocitools', 'generate', '']` —
the empty token is appended, not filtered out. -/
theorem empty_config_yields_empty_token :
    buildOcitoolsCmd configDefault = (["ocitools", "generate", ""], []) := by
  decide

/- ### Process state, filesystem, and the remaining commands -/

/-- Content of a file on the modelled filesystem: plain text, or a JSON tree
as written by `json.dump`. -/
inductive FileContent where
  | text : String → FileContent
  | jsonFile : Json → FileContent

/-- Process-level state: the working directory, the durable filesystem
(path ↦ content), and the live temporary directories with their contents
(`tempfile.mkdtemp` creates one, `shutil.rmtree` removes one). -/
structure ProcState where
  cwd : String
  files : List (String × FileContent)
  temp : List (String × List (String × FileContent))

/-- `os.path.sep.join([dir, filename])` on a POSIX platform. -/
def pathJoin (dir filename : String) : String := dir ++ "/" ++ filename

/-- Errors surfaced by the CLI: `invalidChoice` is argparse's rejection of a
constrained option value; `externalToolFailure` is the
`subprocess.CalledProcessError` raised by `subprocess.check_call`, carrying
the argument vector and the exit status. -/
inductive CliError where
  | invalidChoice (param : String) (value : String) (choices : List String)
  | externalToolFailure (args : List String) (exitStatus : Nat)

/-- Modelled from the spec: `util.mkdir` (the `util` module is not under
`src/`) creates the output directory if absent — a pre-existing directory is
success, not an error — and returns its path. -/
def mkdirOutput (path : String) : String := path

/-- Modelled from the spec: `util.pushd` (the `util` module is not under
`src/`) changes the process working directory and returns a closure restoring
the previous working directory; §5 requires the caller to run it on every
exit path. -/
def pushd (st : ProcState) (dir : String) : ProcState × (ProcState → ProcState) :=
  ({ st with cwd := dir }, fun st' => { st' with cwd := st.cwd })

/-- Modelled from the spec: the packaged Jinja template `service.template.j2`
is not under `src/`.  Per the spec, rendering resolves only `description` and
leaves the deferred placeholder tokens `$EXEC_START`, `$EXEC_STOP` and
`$DESTDIR` literally in the output. -/
def renderService (description : String) : String :=
  "[Unit]\nDescription=" ++ description ++
    "\n\n[Service]\nExecStart=$EXEC_START\nExecStop=$EXEC_STOP\nWorkingDirectory=$DESTDIR\n"

/-- The nine parameters handed to the Dockerfile template by
`GenerateDockerfileAction.__call__` (keyword names as in the source). -/
structure DockerfileParams where
  from_base : String
  name : String
  maintainer : String
  license_name : String
  summary : String
  version : String
  help_text : String
  architecture : String
  scope : String

/-- Modelled from the spec: the packaged Jinja template `Dockerfile.j2` is
not under `src/`.  Per the spec, rendering substitutes all nine parameters
immediately and leaves no deferred placeholders. -/
def renderDockerfile (p : DockerfileParams) : String :=
  "FROM " ++ p.from_base ++ "\nLABEL name=" ++ p.name ++ " maintainer=" ++
    p.maintainer ++ " license=" ++ p.license_name ++ " summary=" ++ p.summary ++
    " version=" ++ p.version ++ " help=" ++ p.help_text ++ " architecture=" ++
    p.architecture ++ " scope=" ++ p.scope ++ "\n"

/-- The `choices` list of the `--scope` option of `dockerfile_command`. -/
def scopeChoices : List String :=
  ["private", "authoritative-source-only", "restricted", "public"]

/-- A command-line argument of `dockerfile_command`, in the order it appears
on the command line: one of the nine store optionals, or the `name`
positional that carries `GenerateDockerfileAction`. -/
inductive DockerfileArg where
  | outputOpt (v : String)
  | fromBaseOpt (v : String)
  | maintainerOpt (v : String)
  | licenseOpt (v : String)
  | summaryOpt (v : String)
  | versionOpt (v : String)
  | helpTextOpt (v : String)
  | architectureOpt (v : String)
  | scopeOpt (v : String)
  | nameArg (v : String)

/-- The argparse namespace of `dockerfile_command` (attribute names as in the
source); argparse stores every option's declared default into the namespace
before consuming any argument. -/
structure DockerfileNamespace where
  output : String
  from_base : String
  maintainer : String
  license : String
  summary : String
  version : String
  help_text : String
  architecture : String
  scope : String

/-- The option defaults declared by `dockerfile_command`. -/
def dockerfileDefaults : DockerfileNamespace :=
  { output := ".", from_base := "centos:latest", maintainer := "UNKNOWN",
    license := "UNKNOWN", summary := "UNKNOWN", version := "1",
    help_text := "No help", architecture := "x86_64", scope := "private" }

/-- `GenerateDockerfileAction.__call__`: renders `Dockerfile.j2` with the
nine parameters taken from the namespace as it stands when the positional is
consumed (options seen so far; declared defaults otherwise) and the
positional's value, and writes `Dockerfile` into the output directory. -/
def generateDockerfileAction (ns : DockerfileNamespace) (nameValue : String)
    (st : ProcState) : ProcState :=
  let p : DockerfileParams :=
    { from_base := ns.from_base, name := nameValue, maintainer := ns.maintainer,
      license_name := ns.license, summary := ns.summary, version := ns.version,
      help_text := ns.help_text, architecture := ns.architecture, scope := ns.scope }
  let files' := dictInsert st.files (pathJoin (mkdirOutput ns.output) "Dockerfile")
    (FileContent.text (renderDockerfile p))
  { st with files := files' }

/-- Consumption of one command-line argument, as argparse performs it: a
store option updates the namespace — the constrained `--scope` is validated
against its `choices` list at this point and an invalid value aborts the
parse — while the `name` positional fires `GenerateDockerfileAction`
immediately. -/
def applyDockerfileArg (ns : DockerfileNamespace) (st : ProcState) :
    DockerfileArg → Except CliError (DockerfileNamespace × ProcState)
  | DockerfileArg.outputOpt v => Except.ok ({ ns with output := v }, st)
  | DockerfileArg.fromBaseOpt v => Except.ok ({ ns with from_base := v }, st)
  | DockerfileArg.maintainerOpt v => Except.ok ({ ns with maintainer := v }, st)
  | DockerfileArg.licenseOpt v => Except.ok ({ ns with license := v }, st)
  | DockerfileArg.summaryOpt v => Except.ok ({ ns with summary := v }, st)
  | DockerfileArg.versionOpt v => Except.ok ({ ns with version := v }, st)
  | DockerfileArg.helpTextOpt v => Except.ok ({ ns with help_text := v }, st)
  | DockerfileArg.architectureOpt v => Except.ok ({ ns with architecture := v }, st)
  | DockerfileArg.scopeOpt v =>
      if v ∈ scopeChoices then Except.ok ({ ns with scope := v }, st)
      else Except.error (CliError.invalidChoice "scope" v scopeChoices)
  | DockerfileArg.nameArg v => Except.ok (ns, generateDockerfileAction ns v st)

/-- argparse's in-order consumption of the argument list: each consumed
argument takes effect immediately, and the first failing argument aborts the
whole parse — leaving in place any file an earlier argument's action already
wrote. -/
def parseDockerfileArgs : List DockerfileArg → DockerfileNamespace → ProcState →
    ProcState × Except CliError Unit
  | [], _, st => (st, Except.ok ())
  | item :: rest, ns, st =>
    match applyDockerfileArg ns st item with
    | Except.ok (ns', st') => parseDockerfileArgs rest ns' st'
    | Except.error e => (st, Except.error e)

/-- The generate-dockerfile command: argparse seeds the namespace with the
declared defaults, then consumes the command-line arguments in order. -/
def dockerfileCommand (args : List DockerfileArg) (st : ProcState) :
    ProcState × Except CliError Unit :=
  parseDockerfileArgs args dockerfileDefaults st

/-- An argument item that is an optional (not the `name` positional) carrying
a value argparse accepts. -/
def isValidOption : DockerfileArg → Bool
  | DockerfileArg.nameArg _ => false
  | DockerfileArg.scopeOpt v => decide (v ∈ scopeChoices)
  | _ => true

/-- `subprocess.check_call(args)`: the external process's exit status is a
parameter; a nonzero status raises `CalledProcessError` (carrying the
argument vector and the status), a zero status returns normally. -/
def check_call (args : List String) (exitStatus : Nat) : Except CliError Unit :=
  if exitStatus = 0 then Except.ok ()
  else Except.error (CliError.externalToolFailure args exitStatus)

/-- `TarAction.__call__`: runs `docker save -o <image>.tar <image>`.  On
success the produced tar file's path is `<image>.tar`; on failure the
`CalledProcessError` propagates and no tar path results. -/
def tarAction (image : String) (exitStatus : Nat) : Except CliError String :=
  match check_call ["docker", "save", "-o", image ++ ".tar", image] exitStatus with
  | Except.ok _ => Except.ok (image ++ ".tar")
  | Except.error e => Except.error e

/-- `BuildAction.__call__`: pushd into the Dockerfile directory, run
`docker build -t <tag> .`, and pop back in the `finally` block on every exit
path. -/
def buildAction (path tag : String) (exitStatus : Nat) (st : ProcState) :
    ProcState × Except CliError Unit :=
  let (st1, popd) := pushd st path
  let r := check_call ["docker", "build", "-t", tag, "."] exitStatus
  (popd st1, r)

/-- The human-readable message printed by the CLI on an error: for an escaped
`CalledProcessError`, `main` calls
`parser.error('Unable to execute command: {}'.format(error))`; for an invalid
choice, argparse prints its own diagnostic naming the parameter and the
allowed set. -/
def errorMessage : CliError → String
  | CliError.invalidChoice param value choices =>
      "argument " ++ param ++ ": invalid choice: " ++ value ++
        " (choose from " ++ String.intercalate ", " choices ++ ")"
  | CliError.externalToolFailure args status =>
      "Unable to execute command: Command " ++ String.intercalate " " args ++
        " returned non-zero exit status " ++ toString status

/-- `main`'s exit behavior: success exits 0 with no message; an error is
turned into `parser.error(...)`, which prints the message and exits with
status 2. -/
def mainExit (r : Except CliError Unit) : Nat × Option String :=
  match r with
  | Except.ok _ => (0, none)
  | Except.error e => (2, some (errorMessage e))

/-- Arguments of the generate-files command. -/
structure GenFilesArgs where
  output : String
  description : String
  config : String
  default : List String

/-- `GenerateFilesAction.__call__`: create the output directory, build the
manifest from the override tokens and write `manifest.json`, render and write
`service.template`, then — inside a fresh temporary directory entered with
`pushd` — run `ocitools generate`; on success the generator's `config.json`
is moved into the output directory as `config.json.template`; the `finally`
block pops back to the saved working directory and removes the temporary
directory on every exit path.  The external generator is parameterized by its
exit status and the config content it would produce. -/
def generateFilesAction (a : GenFilesArgs) (tempDir : String) (generatorExit : Nat)
    (generated : String) (st : ProcState) : ProcState × Except CliError Unit :=
  let output := mkdirOutput a.output
  let manifest := generateManifest a.default
  let mContent := FileContent.jsonFile (dumpManifest manifest)
  let st1 := { st with files := dictInsert st.files (pathJoin output "manifest.json") mContent }
  let sContent := FileContent.text (renderService a.description)
  let st2 := { st1 with files := dictInsert st1.files (pathJoin output "service.template") sContent }
  let st3 := { st2 with temp := dictInsert st2.temp tempDir [] }
  let (st4, popd) := pushd st3 tempDir
  let cmd := (buildOcitoolsCmd a.config).1
  let (st5, result) :=
    match check_call cmd generatorExit with
    | Except.ok _ =>
      let tempFiles := dictInsert ([] : List (String × FileContent)) "config.json"
        (FileContent.text generated)
      let st4a := { st4 with temp := dictInsert st4.temp tempDir tempFiles }
      let movedFiles := dictInsert st4a.files (pathJoin output "config.json.template")
        (FileContent.text generated)
      let st4b := { st4a with files := movedFiles, temp := dictInsert st4a.temp tempDir [] }
      (st4b, Except.ok ())
    | Except.error e => (st4, Except.error e)
  let st6 := popd st5
  let st7 := { st6 with temp := dictRemove st6.temp tempDir }
  (st7, result)

/- ### Helper lemmas for the stateful claims -/

theorem dictLookup_dictRemove_self {α : Type} (m : List (String × α)) (k : String) :
    dictLookup (dictRemove m k) k = none := by
  induction m with
  | nil => rfl
  | cons p rest ih => by_cases h : p.1 = k <;> simp [dictRemove, dictLookup, h, ih]

theorem append_left_cancel_str (a b c : String) (h : a ++ b = a ++ c) : b = c := by
  have hd : a.data ++ b.data = a.data ++ c.data := by
    have h2 := congrArg String.data h
    simpa [String.data_append] using h2
  have h3 : b.data = c.data := List.append_cancel_left hd
  exact String.ext h3

theorem pathJoin_ne (dir f g : String) (h : f ≠ g) : pathJoin dir f ≠ pathJoin dir g := by
  intro he
  simp only [pathJoin] at he
  exact h (append_left_cancel_str (dir ++ "/") f g he)

/- ### Claims C5–C8 -/

theorem applyDockerfileArg_validOption (item : DockerfileArg)
    (hvalid : isValidOption item = true) (ns : DockerfileNamespace) (st : ProcState) :
    ∃ ns', applyDockerfileArg ns st item = Except.ok (ns', st) := by
  cases item with
  | nameArg v => simp [isValidOption] at hvalid
  | scopeOpt v =>
    have hv : v ∈ scopeChoices := of_decide_eq_true hvalid
    refine ⟨{ ns with scope := v }, ?_⟩
    simp [applyDockerfileArg, hv]
  | outputOpt v => exact ⟨_, rfl⟩
  | fromBaseOpt v => exact ⟨_, rfl⟩
  | maintainerOpt v => exact ⟨_, rfl⟩
  | licenseOpt v => exact ⟨_, rfl⟩
  | summaryOpt v => exact ⟨_, rfl⟩
  | versionOpt v => exact ⟨_, rfl⟩
  | helpTextOpt v => exact ⟨_, rfl⟩
  | architectureOpt v => exact ⟨_, rfl⟩

theorem parseDockerfileArgs_invalid_scope (pre : List DockerfileArg)
    (hpre : ∀ item ∈ pre, isValidOption item = true) (v : String)
    (hv : v ∉ scopeChoices) (rest : List DockerfileArg) (ns : DockerfileNamespace)
    (st : ProcState) :
    parseDockerfileArgs (pre ++ DockerfileArg.scopeOpt v :: rest) ns st =
      (st, Except.error (CliError.invalidChoice "scope" v scopeChoices)) := by
  induction pre generalizing ns with
  | nil => simp [parseDockerfileArgs, applyDockerfileArg, hv]
  | cons item pre' ih =>
    obtain ⟨ns', hitem⟩ :=
      applyDockerfileArg_validOption item (hpre item (List.mem_cons_self item pre')) ns st
    rw [List.cons_append, parseDockerfileArgs, hitem]
    exact ih (fun i hi => hpre i (List.mem_cons_of_mem item hi)) ns'

/-- Counterexample to C5: in the invocation `generate-dockerfile img
--scope invalid-value` — the `name` positional preceding the invalid
`--scope` option — the command does fail with `invalidChoice`, but argparse
consumed the positional first, so `GenerateDockerfileAction` has already run:
a Dockerfile, rendered with the scope still at its default `private`, has
been written before the abort. -/
theorem dockerfile_scope_after_name_writes_counterexample :
    (dockerfileCommand [DockerfileArg.nameArg "img", DockerfileArg.scopeOpt "invalid-value"]
        ⟨"/", [], []⟩).2 =
      Except.error (CliError.invalidChoice "scope" "invalid-value" scopeChoices)
    ∧ dictLookup
        (dockerfileCommand [DockerfileArg.nameArg "img", DockerfileArg.scopeOpt "invalid-value"]
          ⟨"/", [], []⟩).1.files (pathJoin "." "Dockerfile")
      = some (FileContent.text (renderDockerfile
          { from_base := "centos:latest", name := "img", maintainer := "UNKNOWN",
            license_name := "UNKNOWN", summary := "UNKNOWN", version := "1",
            help_text := "No help", architecture := "x86_64", scope := "private" })) := by
  constructor
  · rfl
  · rfl

/-- C5 (amended): a generate-dockerfile invocation with a scope value outside
{private, authoritative-source-only, restricted, public} always fails with
`invalidChoice` naming the parameter and the allowed set, but whether a
Dockerfile is written depends on argument order: when the invalid `--scope`
precedes the `name` positional (only valid optionals before it), parsing
aborts with the filesystem unchanged — no Dockerfile is written; when the
`name` positional precedes the invalid `--scope`, the action has already
written the Dockerfile (with the scope still at its default `private`)
before the abort. -/
theorem dockerfile_invalid_scope_aborts :
    (∀ (pre : List DockerfileArg), (∀ item ∈ pre, isValidOption item = true) →
      ∀ (v : String), v ∉ scopeChoices → ∀ (rest : List DockerfileArg) (st : ProcState),
        dockerfileCommand (pre ++ DockerfileArg.scopeOpt v :: rest) st =
          (st, Except.error (CliError.invalidChoice "scope" v scopeChoices)))
    ∧ ∀ (n v : String), v ∉ scopeChoices → ∀ st : ProcState,
        dockerfileCommand [DockerfileArg.nameArg n, DockerfileArg.scopeOpt v] st =
          (generateDockerfileAction dockerfileDefaults n st,
            Except.error (CliError.invalidChoice "scope" v scopeChoices)) := by
  constructor
  · intro pre hpre v hv rest st
    exact parseDockerfileArgs_invalid_scope pre hpre v hv rest dockerfileDefaults st
  · intro n v hv st
    simp [dockerfileCommand, parseDockerfileArgs, applyDockerfileArg, hv]

/-- Witness for the amended C5: `--output out --scope invalid-value img`
aborts with the filesystem untouched, while `img --scope invalid-value`
aborts only after the Dockerfile write. -/
theorem dockerfile_invalid_scope_aborts_witness :
    (∀ item ∈ [DockerfileArg.outputOpt "out"], isValidOption item = true)
    ∧ "invalid-value" ∉ scopeChoices
    ∧ dockerfileCommand
        [DockerfileArg.outputOpt "out", DockerfileArg.scopeOpt "invalid-value",
          DockerfileArg.nameArg "img"] ⟨"/", [], []⟩ =
      (⟨"/", [], []⟩,
        Except.error (CliError.invalidChoice "scope" "invalid-value" scopeChoices))
    ∧ dockerfileCommand [DockerfileArg.nameArg "img", DockerfileArg.scopeOpt "invalid-value"]
        ⟨"/", [], []⟩ =
      (generateDockerfileAction dockerfileDefaults "img" ⟨"/", [], []⟩,
        Except.error (CliError.invalidChoice "scope" "invalid-value" scopeChoices)) :=
  ⟨by decide, by decide,
    dockerfile_invalid_scope_aborts.1 [DockerfileArg.outputOpt "out"] (by decide)
      "invalid-value" (by decide) [DockerfileArg.nameArg "img"] ⟨"/", [], []⟩,
    dockerfile_invalid_scope_aborts.2 "img" "invalid-value" (by decide) ⟨"/", [], []⟩⟩

/-- C6: after the config-generation phase of generate-files, whether the
external generator exits zero or nonzero, the temporary directory created for
the generation no longer exists and the process working directory equals its
value from before the call. -/
theorem config_phase_releases_tempdir_restores_cwd
    (a : GenFilesArgs) (tempDir : String) (generatorExit : Nat) (generated : String)
    (st : ProcState) :
    (generateFilesAction a tempDir generatorExit generated st).1.cwd = st.cwd
    ∧ dictLookup (generateFilesAction a tempDir generatorExit generated st).1.temp tempDir
        = none := by
  by_cases h : generatorExit = 0 <;>
    simp [generateFilesAction, pushd, check_call, h, dictLookup_dictRemove_self]

/-- C7: an external-tool invocation (config generator, image build, image
export all go through `subprocess.check_call`) that exits with nonzero status
fails with an `externalToolFailure` carrying the argument vector and the exit
status — never silently swallowed — and `main` turns it into a nonzero
process exit with a human-readable message; in particular image export with
the tool exiting nonzero surfaces the failure of the save invocation and
returns no tar path. -/
theorem external_tool_failure_surfaced (args : List String) (image : String)
    (status : Nat) (h : status ≠ 0) :
    check_call args status = Except.error (CliError.externalToolFailure args status)
    ∧ tarAction image status =
        Except.error (CliError.externalToolFailure
          ["docker", "save", "-o", image ++ ".tar", image] status)
    ∧ (mainExit (check_call args status)).1 ≠ 0
    ∧ (mainExit (check_call args status)).2 ≠ none := by
  refine ⟨by simp [check_call, h], by simp [tarAction, check_call, h], ?_, ?_⟩ <;>
    simp [mainExit, check_call, h]

/-- Witness for C7: image export with the external tool exiting with
status 1. -/
theorem external_tool_failure_surfaced_witness :
    (1 : Nat) ≠ 0 ∧
    tarAction "img" 1 =
      Except.error (CliError.externalToolFailure
        ["docker", "save", "-o", "img" ++ ".tar", "img"] 1) :=
  ⟨by decide, (external_tool_failure_surfaced ["docker", "build"] "img" 1 (by decide)).2.1⟩

/-- C8: if the external config generator fails partway through
generate-files, the already-written `manifest.json` and `service.template`
remain in place in the output directory (no rollback of earlier writes), and
re-running the command with the same output directory overwrites them. -/
theorem no_rollback_on_generator_failure
    (a : GenFilesArgs) (tempDir : String) (generatorExit : Nat) (generated : String)
    (st : ProcState) (hfail : generatorExit ≠ 0) :
    (dictLookup (generateFilesAction a tempDir generatorExit generated st).1.files
        (pathJoin a.output "manifest.json")
      = some (FileContent.jsonFile (dumpManifest (generateManifest a.default))))
    ∧ (dictLookup (generateFilesAction a tempDir generatorExit generated st).1.files
        (pathJoin a.output "service.template")
      = some (FileContent.text (renderService a.description)))
    ∧ ∀ (a2 : GenFilesArgs) (tempDir2 : String) (exit2 : Nat) (generated2 : String),
        a2.output = a.output →
        dictLookup (generateFilesAction a2 tempDir2 exit2 generated2
            (generateFilesAction a tempDir generatorExit generated st).1).1.files
            (pathJoin a.output "manifest.json")
          = some (FileContent.jsonFile (dumpManifest (generateManifest a2.default))) := by
  have hsm : pathJoin a.output "service.template" ≠ pathJoin a.output "manifest.json" :=
    pathJoin_ne _ _ _ (by decide)
  refine ⟨?_, ?_, ?_⟩
  · simp [generateFilesAction, pushd, check_call, hfail, mkdirOutput,
      dictLookup_dictInsert, hsm]
  · simp [generateFilesAction, pushd, check_call, hfail, mkdirOutput,
      dictLookup_dictInsert]
  · intro a2 tempDir2 exit2 generated2 hout
    have hcm : pathJoin a.output "config.json.template" ≠ pathJoin a.output "manifest.json" :=
      pathJoin_ne _ _ _ (by decide)
    by_cases h2 : exit2 = 0 <;>
      simp [generateFilesAction, pushd, check_call, h2, mkdirOutput,
        dictLookup_dictInsert, hout, hcm, hsm]

/-- Witness for C8: a failing generator (exit status 1) followed by a
successful re-run into the same output directory. -/
theorem no_rollback_on_generator_failure_witness :
    (1 : Nat) ≠ 0 ∧
    dictLookup (generateFilesAction ⟨"out", "demo", "", ["a=1"]⟩ "tmpd" 1 "" ⟨"/", [], []⟩).1.files
        (pathJoin "out" "manifest.json")
      = some (FileContent.jsonFile (dumpManifest (generateManifest ["a=1"]))) :=
  ⟨by decide,
    (no_rollback_on_generator_failure ⟨"out", "demo", "", ["a=1"]⟩ "tmpd" 1 ""
      ⟨"/", [], []⟩ (by decide)).1⟩

end SyscontainerBuild
